import Mathlib

/-!
# Verification of the VideoF2B geometry core and flight model

A shallow embedding of the relevant parts of the VideoF2B repository:
the `Flight` session record (`videof2b/core/flight.py`) and the AR figure
drawing routines (`Drawing.py`).  Python floats are idealised as exact
rationals (`ℚ`) where only field plumbing matters, and as reals (`ℝ`)
where trigonometry matters.  Python exceptions are modelled with
`Except PyErr`.
-/

namespace VideoF2B

/-- Python exceptions raised by `Flight.__init__`: `ValueError` with a
message, or `TypeError` (message irrelevant to the model). -/
inductive PyErr where
  | valueError (msg : String)
  | typeError
deriving DecidableEq

/-- A Python value passed as `cam_index`: either an integer or a string.
(`None` is modelled as `Option.none` at the use site.) -/
inductive PyVal where
  | pyInt (n : ℤ)
  | pyStr (s : String)
deriving DecidableEq

/-- The numeric value of a nonempty all-digit character list (the core of
Python's `int(str)` parse). -/
def pyNat? (cs : List Char) : Option ℕ :=
  if cs.isEmpty then none
  else if cs.all fun c => c.isDigit then
    some (cs.foldl (fun n c => n * 10 + (c.toNat - 48)) 0)
  else none

/-- Python `int(s)` on a string: an optional minus sign followed by
decimal digits; anything else raises `ValueError` (Python's tolerance for
surrounding whitespace and underscores is not modelled — the claims use
only plainly numeric and plainly non-numeric strings). -/
def pyInt? (s : String) : Option ℤ :=
  match s.data with
  | '-' :: rest => (pyNat? rest).map fun v => -(v : ℤ)
  | cs => (pyNat? cs).map fun v => (v : ℤ)

/-- Python `int(x)` applied to an optional `cam_index` value:
`int(None)` raises `TypeError`; `int(s)` for a string `s` that does not
parse as an integer raises `ValueError`; otherwise the integer results. -/
def pyToInt : Option PyVal → Except PyErr ℤ
  | none => .error .typeError
  | some (.pyInt n) => .ok n
  | some (.pyStr s) =>
    match pyInt? s with
    | some n => .ok n
    | none => .error (.valueError ("invalid literal for int() with base 10: " ++ s))

/-- Modelled from the spec: `videof2b.core.common` is not among the
sources; the spec lists `0.70710678` among the literal constants
(`cos 45°`). -/
def COS_45 : ℚ := 0.70710678

/-- Modelled from the spec: default flight radius from
`videof2b.core.common` (module absent from the sources).  Its numeric
value is immaterial to every claim, which all pass radii explicitly. -/
def DEFAULT_FLIGHT_RADIUS : ℚ := 21

/-- Modelled from the spec: default marker radius from
`videof2b.core.common` (module absent from the sources); value immaterial
to every claim. -/
def DEFAULT_MARKER_RADIUS : ℚ := 25

/-- Modelled from the spec: default marker height from
`videof2b.core.common` (module absent from the sources); value immaterial
to every claim. -/
def DEFAULT_MARKER_HEIGHT : ℚ := 1.5

/-- Modelled from the spec: default sphere offset; the docstring of
`Flight.__init__` says the sphere offset "Defaults to origin (0., 0., 0.)". -/
def DEFAULT_CENTER : ℚ × ℚ × ℚ := (0, 0, 0)

/-- `Flight.obj_point_names` from `flight.py`. -/
def obj_point_names : List String :=
  ["circle center", "front marker", "left marker", "right marker"]

/-- The keyword arguments accepted by `Flight.__init__` (`kwargs.pop`
with the defaults used by the code); a `none` models an absent key. -/
structure FlightKwargs where
  cam_index : Option PyVal := none
  live_fps : Option ℚ := none
  enable_decimator : Option Bool := none
  skip_locate : Option Bool := none
  flight_radius : Option ℚ := none
  marker_radius : Option ℚ := none
  marker_height : Option ℚ := none
  sphere_offset : Option (ℚ × ℚ × ℚ) := none
  loc_pts : Option (List (ℚ × ℚ)) := none
deriving DecidableEq

/-- The fields of a constructed `Flight` (video stream loading is
external I/O and is not modelled; `is_ready`/`cap` are omitted). -/
structure Flight where
  num_obj_pts : ℕ
  video_path : String
  is_live : Bool
  calibration_path : Option String
  is_calibrated : Bool
  is_located : Bool
  is_ar_enabled : Bool
  cam_index : Option PyVal
  live_fps : ℚ
  is_live_decimator_enabled : Bool
  skip_locate : Bool
  flight_radius : ℚ
  marker_radius : ℚ
  marker_height : ℚ
  sphere_offset : ℚ × ℚ × ℚ
  obj_pts : List (ℚ × ℚ × ℚ)
  loc_pts : List (ℚ × ℚ)
deriving DecidableEq

/-- `Flight.__init__` from `flight.py`.  `cal_exists` models the
filesystem query `cal_path.exists()`.  The statement order of the code is
kept: the `cam_index` conversion (guarded by `is_live`, catching only
`ValueError`) runs before the unconditional `live_fps is None` check. -/
def flightInit (vid_path : String) (is_live : Bool) (cal_path : Option String)
    (cal_exists : Bool) (kw : FlightKwargs) : Except PyErr Flight :=
  let camIndexRes : Except PyErr (Option PyVal) :=
    if is_live then
      match pyToInt kw.cam_index with
      | .ok n => .ok (some (.pyInt n))
      | .error (.valueError _) =>
        .error (.valueError "A valid camera index is required for live video.")
      | .error .typeError => .error .typeError
    else .ok kw.cam_index
  match camIndexRes with
  | .error e => .error e
  | .ok cam_index =>
    match kw.live_fps with
    | none => .error (.valueError "No frame rate selected for live video.")
    | some live_fps =>
      let marker_radius := kw.marker_radius.getD DEFAULT_MARKER_RADIUS
      let marker_height := kw.marker_height.getD DEFAULT_MARKER_HEIGHT
      let rcos45 := marker_radius * COS_45
      .ok {
        num_obj_pts := obj_point_names.length
        video_path := vid_path
        is_live := is_live
        calibration_path := cal_path
        is_calibrated := cal_path.isSome && cal_exists
        is_located := false
        is_ar_enabled := true
        cam_index := cam_index
        live_fps := live_fps
        is_live_decimator_enabled := kw.enable_decimator.getD false
        skip_locate := kw.skip_locate.getD false
        flight_radius := kw.flight_radius.getD DEFAULT_FLIGHT_RADIUS
        marker_radius := marker_radius
        marker_height := marker_height
        sphere_offset := kw.sphere_offset.getD DEFAULT_CENTER
        obj_pts := [(0, 0, -marker_height), (0, marker_radius, 0),
                    (-rcos45, rcos45, 0), (rcos45, rcos45, 0)]
        loc_pts := kw.loc_pts.getD []
      }

/-! ## Locator point state machine (`flight.py` lines 165-193)

The locator methods touch only `loc_pts` and the two Qt signals.  We model
the state as the point list plus the log of emitted signals; a point is an
arbitrary value `α` (Python appends whatever object is passed). -/

/-- A signal emitted during the locating procedure: either
`locator_points_changed` (with the current points and the instruction
message) or `locator_points_defined`. -/
inductive LocEvent (α : Type) where
  | pointsChanged (pts : List α) (msg : String)
  | pointsDefined
deriving DecidableEq

/-- Locator state: the `loc_pts` list, plus a log of the emitted signals. -/
structure LocState (α : Type) where
  loc_pts : List α := []
  events : List (LocEvent α) := []
deriving DecidableEq

/-- `Flight.num_obj_pts` (`len(Flight.obj_point_names)`, i.e. 4). -/
def numObjPts : ℕ := obj_point_names.length

/-- `Flight.on_locator_points_changed`: emit `locator_points_changed` with
the current points and an instruction message. -/
def onLocatorPointsChanged {α : Type} (s : LocState α) : LocState α :=
  let idx := s.loc_pts.length
  let msg := if idx < obj_point_names.length then
      "Click " ++ obj_point_names.getD idx "" ++ "."
    else "All points defined."
  { s with events := s.events ++ [.pointsChanged s.loc_pts msg] }

/-- `Flight.add_locator_point`: append while below the limit, then (with
the guard of the source, which checks only the resulting count) emit
`locator_points_defined` whenever the count equals the limit. -/
def addLocatorPoint {α : Type} (s : LocState α) (p : α) : LocState α :=
  let s1 := if s.loc_pts.length < numObjPts then
      onLocatorPointsChanged { s with loc_pts := s.loc_pts ++ [p] }
    else s
  if s1.loc_pts.length = numObjPts then
    { s1 with events := s1.events ++ [.pointsDefined] }
  else s1

/-- `Flight.pop_locator_point`: remove the last added point if any. -/
def popLocatorPoint {α : Type} (s : LocState α) : LocState α :=
  if s.loc_pts.isEmpty then s
  else onLocatorPointsChanged { s with loc_pts := s.loc_pts.dropLast }

/-- `Flight.clear_locator_points`. -/
def clearLocatorPoints {α : Type} (s : LocState α) : LocState α :=
  onLocatorPointsChanged { s with loc_pts := [] }

/-! ## Parametric curves and figure geometry (`Drawing.py`)

Floats are idealised as reals.  `PointsInCircum(r, 0)` raises
`ZeroDivisionError` in Python (the comprehension evaluates `2*pi/n` for
`x = 0`), modelled as `none`. -/

/-- The point formula of `PointsInCircum`: the `x`-th of the `n+1` points
on the circle of radius `r`. -/
noncomputable def pointsInCircumFun (r : ℝ) (n : ℕ) (x : ℕ) : ℝ × ℝ :=
  (Real.cos (2 * Real.pi / n * x) * r, Real.sin (2 * Real.pi / n * x) * r)

/-- `PointsInCircum(r, n)` from `Drawing.py`; `none` models the
`ZeroDivisionError` raised when `n = 0`. -/
noncomputable def PointsInCircum (r : ℝ) (n : ℕ) : Option (List (ℝ × ℝ)) :=
  if n = 0 then none
  else some ((List.range (n + 1)).map (pointsInCircumFun r n))

/-- The point formula of `PointsInHalfCircum`: the `x`-th of the `n+1`
points on the half circle of radius `r`. -/
noncomputable def pointsInHalfCircumFun (r : ℝ) (n : ℕ) (x : ℕ) : ℝ × ℝ :=
  (Real.cos (Real.pi / n * x) * r, Real.sin (Real.pi / n * x) * r)

/-- The matrix built by `draw_merid` for an angle whose cosine is `c` and
sine is `s` (the source's `RotMatrix`, rows `[c, s, 0]`, `[s, c, 0]`,
`[0, 0, 1]`). -/
def drawMeridMatrix {α : Type} [CommRing α] (c s : α) : Matrix (Fin 3) (Fin 3) α :=
  !![c, s, 0; s, c, 0; 0, 0, 1]

/-- `draw_merid`'s matrix at an angle given in degrees, converted to
radians as the source does. -/
noncomputable def meridMatrixOfAngle (a : ℝ) : Matrix (Fin 3) (Fin 3) ℝ :=
  drawMeridMatrix (Real.cos (a * Real.pi / 180)) (Real.sin (a * Real.pi / 180))

/-- The rotation about the polar (z) axis by the angle whose cosine is `c`
and sine is `s`, in the convention of the source: points are rows and are
multiplied on the right (`np.matmul(points, M)`). -/
def rotZRowMatrix {α : Type} [CommRing α] (c s : α) : Matrix (Fin 3) (Fin 3) α :=
  !![c, s, 0; -s, c, 0; 0, 0, 1]

/-- `draw_merid`'s half-circle point in 3D: `np.c_[zeros, coords]` places
the half-circle coordinates in the y and z slots, x is zero. -/
noncomputable def meridLocalPoint (r : ℝ) (n : ℕ) (x : ℕ) : Fin 3 → ℝ :=
  ![0, (pointsInHalfCircumFun r n x).1, (pointsInHalfCircumFun r n x).2]

/-! ### Loop and top-loop pipeline (`draw_loop`, `draw_top_loop`) -/

/-- `rLoop = r*0.382683` from `draw_loop`/`draw_top_loop`. -/
noncomputable def loopRadius (r : ℝ) : ℝ := r * 0.382683

/-- The loop's anchor `center = [0, 0.85356*r, 0.35355*r]`. -/
noncomputable def loopCenter (r : ℝ) : Fin 3 → ℝ := ![0, 0.85356 * r, 0.35355 * r]

/-- The top loop's anchor `center = [0, 0.35355*r, 0.85356*r]`. -/
noncomputable def topLoopCenter (r : ℝ) : Fin 3 → ℝ := ![0, 0.35355 * r, 0.85356 * r]

/-- `TiltMatrix` of `draw_loop`. -/
noncomputable def tiltMatrixLoop : Matrix (Fin 3) (Fin 3) ℝ :=
  !![1, 0, 0; 0, 0.92388, 0.38268; 0, -0.38268, 0.92388]

/-- `TiltMatrix` of `draw_top_loop`. -/
noncomputable def tiltMatrixTopLoop : Matrix (Fin 3) (Fin 3) ℝ :=
  !![1, 0, 0; 0, 0.38268, 0.92388; 0, -0.92388, 0.38268]

/-- The fixed axis-permuting matrix `[[0,-1,0],[1,0,0],[0,0,1]]` applied
first in both loop pipelines. -/
def axisSwapMatrix : Matrix (Fin 3) (Fin 3) ℝ := !![0, -1, 0; 1, 0, 0; 0, 0, 1]

/-- `YawMatrix` of `draw_loop`/`draw_top_loop`: `YawAngle = angle*pi/180`,
rows `[c, -s, 0]`, `[s, c, 0]`, `[0, 0, 1]`. -/
noncomputable def yawMatrix (angle : ℝ) : Matrix (Fin 3) (Fin 3) ℝ :=
  !![Real.cos (angle * Real.pi / 180), -Real.sin (angle * Real.pi / 180), 0;
     Real.sin (angle * Real.pi / 180), Real.cos (angle * Real.pi / 180), 0;
     0, 0, 1]

/-- The `x`-th local-frame loop point: circle coordinates of radius
`rLoop` stacked after a zero x-column (`np.c_[zeros, coords]`,
`n = 100` as in the source). -/
noncomputable def loopLocalPoint (r : ℝ) (x : ℕ) : Fin 3 → ℝ :=
  ![0, (pointsInCircumFun (loopRadius r) 100 x).1,
       (pointsInCircumFun (loopRadius r) 100 x).2]

/-- The `x`-th loop point before the yaw: local point, axis swap, tilt,
then translation to the anchor. -/
noncomputable def drawLoopPreYaw (r : ℝ) (x : ℕ) : Fin 3 → ℝ :=
  Matrix.vecMul (Matrix.vecMul (loopLocalPoint r x) axisSwapMatrix) tiltMatrixLoop
    + loopCenter r

/-- The `x`-th generated point of `draw_loop`: the pre-yaw point, yawed. -/
noncomputable def drawLoopPoint (angle r : ℝ) (x : ℕ) : Fin 3 → ℝ :=
  Matrix.vecMul (drawLoopPreYaw r x) (yawMatrix angle)

/-- The `x`-th top-loop point before the yaw. -/
noncomputable def drawTopLoopPreYaw (r : ℝ) (x : ℕ) : Fin 3 → ℝ :=
  Matrix.vecMul (Matrix.vecMul (loopLocalPoint r x) axisSwapMatrix) tiltMatrixTopLoop
    + topLoopCenter r

/-- The `x`-th generated point of `draw_top_loop`. -/
noncomputable def drawTopLoopPoint (angle r : ℝ) (x : ℕ) : Fin 3 → ℝ :=
  Matrix.vecMul (drawTopLoopPreYaw r x) (yawMatrix angle)

/-- Squared Euclidean distance of two 3D points. -/
def distSq (p q : Fin 3 → ℝ) : ℝ :=
  (p 0 - q 0) ^ 2 + (p 1 - q 1) ^ 2 + (p 2 - q 2) ^ 2

/-! ### Drawn segments: figure polylines and the track overlay

Image mutation is modelled as the list of emitted line-segment commands
(`cv2.line` calls): endpoints, BGR color, thickness. -/

/-- A `cv2.line` command: two pixel endpoints, a BGR color, a thickness. -/
structure Seg where
  p1 : ℤ × ℤ
  p2 : ℤ × ℤ
  color : ℤ × ℤ × ℤ
  thickness : ℕ
deriving DecidableEq

/-- The polyline loop `for i in range(len-1): cv2.line(pts[i], pts[i+1], color, 1)`. -/
def polylineSegs (pts : List (ℤ × ℤ)) (color : ℤ × ℤ × ℤ) : List Seg :=
  (pts.zip pts.tail).map fun ab => ⟨ab.1, ab.2, color, 1⟩

/-- The segments drawn by `draw_loop`, given an abstract projection
`proj` standing for `cv2.projectPoints` followed by integer truncation. -/
noncomputable def drawLoopSegs (proj : (Fin 3 → ℝ) → ℤ × ℤ) (angle r : ℝ)
    (color : ℤ × ℤ × ℤ) : List Seg :=
  polylineSegs ((List.range 101).map fun x => proj (drawLoopPoint angle r x)) color

/-- The segments drawn by `draw_top_loop`. -/
noncomputable def drawTopLoopSegs (proj : (Fin 3 → ℝ) → ℤ × ℤ) (angle r : ℝ)
    (color : ℤ × ℤ × ℤ) : List Seg :=
  polylineSegs ((List.range 101).map fun x => proj (drawTopLoopPoint angle r x)) color

/-- `drawHorEight`: two loops at `angle ± 24.47`, each drawn with the
literal color `(255, 255, 255)` regardless of the `color` argument. -/
noncomputable def drawHorEightSegs (proj : (Fin 3 → ℝ) → ℤ × ℤ) (angle r : ℝ)
    (color : ℤ × ℤ × ℤ) : List Seg :=
  drawLoopSegs proj (angle + 24.47) r (255, 255, 255)
    ++ drawLoopSegs proj (angle - 24.47) r (255, 255, 255)

/-- `drawVerEight`: a loop and a top loop at the same angle, each drawn
with the literal color `(255, 255, 255)`. -/
noncomputable def drawVerEightSegs (proj : (Fin 3 → ℝ) → ℤ × ℤ) (angle r : ℝ)
    (color : ℤ × ℤ × ℤ) : List Seg :=
  drawLoopSegs proj angle r (255, 255, 255)
    ++ drawTopLoopSegs proj angle r (255, 255, 255)

/-- `drawOverheadEight`: two top loops at `angle ± 90`, each drawn with
the literal color `(255, 255, 255)`. -/
noncomputable def drawOverheadEightSegs (proj : (Fin 3 → ℝ) → ℤ × ℤ) (angle r : ℝ)
    (color : ℤ × ℤ × ℤ) : List Seg :=
  drawTopLoopSegs proj (angle + 90) r (255, 255, 255)
    ++ drawTopLoopSegs proj (angle - 90) r (255, 255, 255)

/-! ### Track overlay (`draw_track`) -/

/-- The gradient color of the track segment at loop index `i`:
`color = int(255*i/maxlen)`, drawn as
`(0, min(255, color*2), min(255, (255-color)*2))`.  For the in-range
indices (`i ≤ maxlen`) integer division of exact values coincides with
Python's `int()` truncation of the float quotient. -/
def trackSegColor (i maxlen : ℕ) : ℤ × ℤ × ℤ :=
  let color : ℤ := 255 * (i : ℤ) / (maxlen : ℤ)
  (0, min 255 (color * 2), min 255 ((255 - color) * 2))

/-- The candidate track segment at loop index `i`: drawn exactly when
neither `pts[i-1]` nor `pts[i]` is a hole (`None`). -/
def trackSegAt (pts : List (Option (ℤ × ℤ))) (maxlen : ℕ) (i : ℕ) : Option Seg :=
  match pts.getD (i - 1) none, pts.getD i none with
  | some a, some b => some ⟨a, b, trackSegColor i maxlen, 1⟩
  | _, _ => none

/-- `draw_track`: the loop `for i in range(1, len(pts_scaled))`, emitting
a segment for each consecutive pair of non-hole points.  It is a function
of the point sequence and `maxlen` only. -/
def drawTrack (pts : List (Option (ℤ × ℤ))) (maxlen : ℕ) : List Seg :=
  (List.range' 1 (pts.length - 1)).filterMap (trackSegAt pts maxlen)

/-! ## Theorems -/

/-- The keyword arguments of the repository's serialization test
(`test_serialization.py`): explicit radii, offset and locator points, no
`live_fps`. -/
def testKwargs : FlightKwargs :=
  { flight_radius := some 21.336
    marker_radius := some 25
    marker_height := some 1.51
    sphere_offset := some (1, -0.7, 0)
    loc_pts := some [(942, 1001), (936, 962), (519, 964), (1348, 954)] }

/-- C1: the round-trip scenario of the repository's own serialization
test cannot even start: constructing the `Flight` with the test's literal
values (file-based, no `live_fps`) raises
`ValueError("No frame rate selected for live video.")` because the
`live_fps` check in `Flight.__init__` is not guarded by `is_live`; and
even with a frame rate supplied, the constructed flight has
`is_located = false`, contradicting the test's assertion that both
flights have `is_located` true. -/
theorem flight_roundtrip_construction_bug :
    flightInit "../TestVideos/new_ui/1-four_leaf_clover.mp4" false
        (some "../cal/SONY-A57 10-20@10mm/as normal/CamCalibration.npz") true
        testKwargs
      = .error (.valueError "No frame rate selected for live video.")
    ∧ Except.map Flight.is_located
        (flightInit "../TestVideos/new_ui/1-four_leaf_clover.mp4" false
          (some "../cal/SONY-A57 10-20@10mm/as normal/CamCalibration.npz") true
          { testKwargs with live_fps := some 30 })
      = .ok false := by
  exact ⟨rfl, rfl⟩

/-- The locator state after adding four points (1, 2, 3, 4) from empty. -/
def locFourAdds : LocState ℕ :=
  addLocatorPoint (addLocatorPoint (addLocatorPoint (addLocatorPoint {} 1) 2) 3) 4

/-- C2: evaluation of the locator state machine at the failing input.
Adding four points from empty appends all four and emits
`locator_points_defined` exactly once, and `pop_locator_point` on an
empty list is a no-op — but a fifth add, although it leaves the list
unchanged, emits `locator_points_defined` a second time (the emit guard
of `add_locator_point` checks only that the count equals 4, not that the
add just reached it), contradicting the claim that the fifth add emits no
event. -/
theorem locator_fifth_add_emits_defined_again :
    locFourAdds.loc_pts = [1, 2, 3, 4]
    ∧ locFourAdds.events.count (LocEvent.pointsDefined : LocEvent ℕ) = 1
    ∧ (addLocatorPoint locFourAdds 5).loc_pts = locFourAdds.loc_pts
    ∧ (addLocatorPoint locFourAdds 5).events
        = locFourAdds.events ++ [LocEvent.pointsDefined]
    ∧ popLocatorPoint ({} : LocState ℕ) = {} := by
  refine ⟨rfl, rfl, rfl, rfl, rfl⟩

/-- C5: the `live_fps` validation in `Flight.__init__` is unconditional.
A live flight with a valid camera index and no frame rate raises
`ValueError("No frame rate selected for live video.")` as the claim
states — but a file-based flight (`is_live=False`) without `live_fps`
raises the very same `ValueError` instead of succeeding, because the
`live_fps is None` check is not guarded by `is_live`. -/
theorem flight_live_fps_check_unconditional :
    flightInit "video.mp4" true none false { cam_index := some (.pyInt 0) }
      = .error (.valueError "No frame rate selected for live video.")
    ∧ flightInit "video.mp4" false (some "cal.npz") true {}
      = .error (.valueError "No frame rate selected for live video.") := by
  exact ⟨rfl, rfl⟩

/-- C10: for a live flight, a missing `cam_index` (`None`) raises
`TypeError` from `int(None)` — the handler catches only `ValueError` —
while the message "A valid camera index is required for live video."
is produced exactly when `cam_index` is present but is a string that does
not convert to an integer. -/
theorem live_cam_index_type_error (vid : String) (cal : Option String)
    (ce : Bool) (kw : FlightKwargs) :
    (kw.cam_index = none → flightInit vid true cal ce kw = .error .typeError)
    ∧ (∀ s : String, kw.cam_index = some (.pyStr s) → pyInt? s = none →
        flightInit vid true cal ce kw
          = .error (.valueError "A valid camera index is required for live video."))
    ∧ (flightInit vid true cal ce kw
          = .error (.valueError "A valid camera index is required for live video.") →
        ∃ s, kw.cam_index = some (.pyStr s) ∧ pyInt? s = none) := by
  refine ⟨?_, ?_, ?_⟩
  · intro h
    simp [flightInit, pyToInt, h]
  · intro s h hs
    simp [flightInit, pyToInt, h, hs]
  · intro h
    rcases hk : kw.cam_index with _ | v
    · simp [flightInit, pyToInt, hk] at h
    · cases v with
      | pyInt n =>
        rcases hfps : kw.live_fps with _ | f <;>
          simp [flightInit, pyToInt, hk, hfps] at h
      | pyStr s =>
        rcases hs : pyInt? s with _ | m
        · exact ⟨s, rfl, hs⟩
        · rcases hfps : kw.live_fps with _ | f <;>
            simp [flightInit, pyToInt, hk, hs, hfps] at h

/-- Witness for C10 at concrete inputs: live flight with no camera index
gives `TypeError`; live flight with the non-numeric string "abc" gives
the camera-index `ValueError`. -/
theorem live_cam_index_type_error_witness :
    flightInit "v.mp4" true none false {} = .error .typeError
    ∧ flightInit "v.mp4" true none false { cam_index := some (.pyStr "abc") }
      = .error (.valueError "A valid camera index is required for live video.") := by
  refine ⟨(live_cam_index_type_error "v.mp4" none false {}).1 rfl,
    (live_cam_index_type_error "v.mp4" none false
      { cam_index := some (.pyStr "abc") }).2.1 "abc" rfl (by decide)⟩

/-- A 5-entry track sequence with an explicit hole (`None`) at index 2. -/
def trackExample : List (Option (ℤ × ℤ)) :=
  [some (0, 0), some (1, 1), none, some (3, 3), some (4, 4)]

/-- C4 counterexample: on a 5-point sequence with a hole at index 2,
`draw_track` draws only the two segments 0-1 and 3-4 (the pairs 1-2 and
2-3 are both adjacent to the hole and are skipped), so the drawn segment
count is 2, not 3 as claimed. -/
theorem draw_track_segment_count_is_two :
    (drawTrack trackExample 5).length = 2
    ∧ (drawTrack trackExample 5).length ≠ 3 := by decide

/-- C4 (amended): on the 5-point sequence with a hole at index 2,
`draw_track` draws exactly 2 segments — between indices 0-1 and 3-4, with
the gradient colors of loop indices 1 and 4, and no segment touching
index 2; in general the candidate segment at loop index `i` is skipped
whenever either adjacent entry is a hole, and is drawn between the two
points exactly when both adjacent entries are present.  `drawTrack` is a
function of the point sequence and `maxlen` alone. -/
theorem draw_track_amended :
    drawTrack trackExample 5
      = [⟨(0, 0), (1, 1), trackSegColor 1 5, 1⟩,
         ⟨(3, 3), (4, 4), trackSegColor 4 5, 1⟩]
    ∧ (drawTrack trackExample 5).length = 2
    ∧ (∀ (pts : List (Option (ℤ × ℤ))) (maxlen i : ℕ),
        pts.getD (i - 1) none = none ∨ pts.getD i none = none →
        trackSegAt pts maxlen i = none)
    ∧ (∀ (pts : List (Option (ℤ × ℤ))) (maxlen i : ℕ) (a b : ℤ × ℤ),
        pts.getD (i - 1) none = some a → pts.getD i none = some b →
        trackSegAt pts maxlen i = some ⟨a, b, trackSegColor i maxlen, 1⟩) := by
  refine ⟨by decide, by decide, ?_, ?_⟩
  · intro pts maxlen i h
    unfold trackSegAt
    split
    · rename_i a b ha hb
      rcases h with h | h <;> simp_all
    · rfl
  · intro pts maxlen i a b ha hb
    unfold trackSegAt
    split <;> simp_all

/-- Witness for C4's amended theorem: the hole-adjacent candidate segment
at loop index 2 of the example is skipped, and the candidate at loop
index 1 (both neighbours present) is drawn with the index-1 gradient
color. -/
theorem draw_track_amended_witness :
    trackSegAt trackExample 5 2 = none
    ∧ trackSegAt trackExample 5 1
        = some ⟨(0, 0), (1, 1), trackSegColor 1 5, 1⟩ := by
  refine ⟨draw_track_amended.2.2.1 trackExample 5 2 (Or.inr (by decide)),
    draw_track_amended.2.2.2 trackExample 5 1 (0, 0) (1, 1) (by decide) (by decide)⟩

/-- C9: the three figure-eight drawers ignore their `color` parameter —
for any two colors (all other arguments equal) the emitted drawing
commands are identical, because each forwards the literal color
`(255, 255, 255)` to `draw_loop` / `draw_top_loop`. -/
theorem eights_ignore_color (proj : (Fin 3 → ℝ) → ℤ × ℤ) (angle r : ℝ)
    (c₁ c₂ : ℤ × ℤ × ℤ) :
    drawHorEightSegs proj angle r c₁ = drawHorEightSegs proj angle r c₂
    ∧ drawVerEightSegs proj angle r c₁ = drawVerEightSegs proj angle r c₂
    ∧ drawOverheadEightSegs proj angle r c₁ = drawOverheadEightSegs proj angle r c₂ :=
  ⟨rfl, rfl, rfl⟩

/-- C6 counterexample: at segment count `n = 0` the code does not return
`n + 1 = 1` points — the comprehension evaluates `2*pi/n` and raises
`ZeroDivisionError` (modelled as `none`), so the claim's "for every
radius r and segment count n" fails at `n = 0`. -/
theorem points_in_circum_zero_raises : PointsInCircum 1 0 = none := rfl

/-- C6 (amended): for every radius `r` and every segment count `n ≥ 1`,
`PointsInCircum(r, n)` returns exactly `n + 1` points, the `i`-th of
which sits at angle `2πi/n` (even spacing over the full turn, both
endpoints included), and the first and last points are both exactly
`(r, 0)` — the curve closes with a duplicate start/end point.  At
`n = 0` the code instead raises `ZeroDivisionError`. -/
theorem points_in_circum_amended (r : ℝ) (n : ℕ) (hn : n ≠ 0) :
    ∃ l, PointsInCircum r n = some l
      ∧ l.length = n + 1
      ∧ (∀ i, i ≤ n → l.getD i (0, 0) = pointsInCircumFun r n i)
      ∧ l.getD 0 (0, 0) = (r, 0)
      ∧ l.getD n (0, 0) = (r, 0) := by
  refine ⟨(List.range (n + 1)).map (pointsInCircumFun r n), by
      simp [PointsInCircum, hn], by simp, ?_, ?_, ?_⟩
  · intro i hi
    have hi' : i < n + 1 := Nat.lt_succ_of_le hi
    simp [List.getD_eq_getElem?_getD, List.getElem?_map, List.getElem?_range, hi']
  · have h0 : (0 : ℕ) < n + 1 := Nat.succ_pos n
    simp [List.getD_eq_getElem?_getD, List.getElem?_map, List.getElem?_range, h0,
      pointsInCircumFun]
  · have hn' : n < n + 1 := Nat.lt_succ_self n
    have harg : 2 * Real.pi / n * n = 2 * Real.pi := by field_simp
    simp [List.getD_eq_getElem?_getD, List.getElem?_map, List.getElem?_range, hn',
      pointsInCircumFun, harg, Real.cos_two_pi, Real.sin_two_pi]

/-- Witness for C6's amended theorem at `r = 1`, `n = 4`. -/
theorem points_in_circum_amended_witness :
    ∃ l, PointsInCircum 1 4 = some l
      ∧ l.length = 4 + 1
      ∧ (∀ i, i ≤ 4 → l.getD i (0, 0) = pointsInCircumFun 1 4 i)
      ∧ l.getD 0 (0, 0) = (1, 0)
      ∧ l.getD 4 (0, 0) = (1, 0) :=
  points_in_circum_amended 1 4 (by decide)

/-- C3 counterexample: at `a = 90°` the matrix `draw_merid` builds
(`[[c, s, 0], [s, c, 0], [0, 0, 1]]` with `c = cos(a·π/180)`,
`s = sin(a·π/180)`) has determinant `-1`, so it is not a rotation
matrix (every rotation has determinant 1), refuting the claim that for
every angle it is the rotation about the polar axis by `a`. -/
theorem merid_matrix_det_not_one :
    (meridMatrixOfAngle 90).det = -1 ∧ (meridMatrixOfAngle 90).det ≠ 1 := by
  have h1 : (90 : ℝ) * Real.pi / 180 = Real.pi / 2 := by ring
  have hd : (meridMatrixOfAngle 90).det = -1 := by
    unfold meridMatrixOfAngle
    rw [h1, Real.cos_pi_div_two, Real.sin_pi_div_two]
    simp [drawMeridMatrix, Matrix.det_fin_three]
  exact ⟨hd, by rw [hd]; norm_num⟩

/-- C3 (amended): the matrix `draw_merid` applies is
`[[c, s, 0], [s, c, 0], [0, 0, 1]]`, whose determinant is `c² − s²`, so
it is not in general a rotation; but restricted to the meridian plane
`x = 0` — where all of `draw_merid`'s half-circle points live — applying
it as the code does (row vector times matrix) coincides with the rotation
about the polar axis by `−a`, a proper rotation (inverse `R(a)`,
transpose equal to its inverse, determinant 1), so the drawn meridian is
a congruent half-circle rotated by `−a` about the polar axis: its shape
(point norms) is unchanged. -/
theorem merid_matrix_amended {α : Type} [CommRing α] (c s y z : α)
    (h : c ^ 2 + s ^ 2 = 1) :
    Matrix.vecMul ![0, y, z] (drawMeridMatrix c s)
        = Matrix.vecMul ![0, y, z] (rotZRowMatrix c (-s))
    ∧ (rotZRowMatrix c (-s)).det = 1
    ∧ (rotZRowMatrix c (-s)).transpose = rotZRowMatrix c s
    ∧ rotZRowMatrix c (-s) * rotZRowMatrix c s = 1
    ∧ (drawMeridMatrix c s).det = c ^ 2 - s ^ 2
    ∧ (Matrix.vecMul ![0, y, z] (drawMeridMatrix c s) 0) ^ 2
        + (Matrix.vecMul ![0, y, z] (drawMeridMatrix c s) 1) ^ 2
        + (Matrix.vecMul ![0, y, z] (drawMeridMatrix c s) 2) ^ 2
        = y ^ 2 + z ^ 2 := by
  refine ⟨?_, ?_, ?_, ?_, ?_, ?_⟩
  · funext i
    fin_cases i <;>
      simp [drawMeridMatrix, rotZRowMatrix, Matrix.vecMul, Matrix.dotProduct,
        Fin.sum_univ_three]
  · simp [rotZRowMatrix, Matrix.det_fin_three]
    linear_combination h
  · ext i j
    fin_cases i <;> fin_cases j <;> simp [rotZRowMatrix, Matrix.transpose_apply]
  · ext i j
    fin_cases i <;> fin_cases j <;>
      simp [rotZRowMatrix, Matrix.mul_apply, Fin.sum_univ_three, Matrix.one_apply]
    all_goals first | ring1 | linear_combination h
  · simp [drawMeridMatrix, Matrix.det_fin_three]
    ring
  · simp [drawMeridMatrix, Matrix.vecMul, Matrix.dotProduct, Fin.sum_univ_three]
    linear_combination (y ^ 2) * h

/-- Witness for C3's amended theorem at `c = 0`, `s = 1` (the 90° angle)
and the meridian-plane point `(0, 1, 0)`, over `ℚ`. -/
theorem merid_matrix_amended_witness :
    Matrix.vecMul ![0, 1, 0] (drawMeridMatrix (0 : ℚ) 1)
        = Matrix.vecMul ![0, 1, 0] (rotZRowMatrix (0 : ℚ) (-1))
    ∧ (rotZRowMatrix (0 : ℚ) (-1)).det = 1
    ∧ (rotZRowMatrix (0 : ℚ) (-1)).transpose = rotZRowMatrix (0 : ℚ) 1
    ∧ rotZRowMatrix (0 : ℚ) (-1) * rotZRowMatrix (0 : ℚ) 1 = 1
    ∧ (drawMeridMatrix (0 : ℚ) 1).det = 0 ^ 2 - 1 ^ 2
    ∧ (Matrix.vecMul ![0, 1, 0] (drawMeridMatrix (0 : ℚ) 1) 0) ^ 2
        + (Matrix.vecMul ![0, 1, 0] (drawMeridMatrix (0 : ℚ) 1) 1) ^ 2
        + (Matrix.vecMul ![0, 1, 0] (drawMeridMatrix (0 : ℚ) 1) 2) ^ 2
        = 1 ^ 2 + 0 ^ 2 :=
  merid_matrix_amended (0 : ℚ) 1 1 0 (by norm_num)

/-- C7: the loop generated by `draw_loop` has circle radius
`0.382683 × r` and is anchored at the center `(0, 0.85356·r, 0.35355·r)`
before the yaw: every generated pre-yaw point lies at squared distance
from that center between `0.9999982368 · (0.382683·r)²` and
`(0.382683·r)²` — within the floating tolerance induced by the literal
tilt constants (`0.92388² + 0.38268² = 0.9999982368`).  In particular for
`sphereRadius = 25` the circle radius is `25 × 0.382683` and the anchor
is `(0, 0.85356×25, 0.35355×25)` exactly. -/
theorem draw_loop_radius_and_center (r : ℝ) (x : ℕ) :
    loopRadius r = 0.382683 * r
    ∧ loopCenter r = ![0, 0.85356 * r, 0.35355 * r]
    ∧ 0.9999982368 * loopRadius r ^ 2 ≤ distSq (drawLoopPreYaw r x) (loopCenter r)
    ∧ distSq (drawLoopPreYaw r x) (loopCenter r) ≤ loopRadius r ^ 2
    ∧ loopRadius 25 = 25 * 0.382683
    ∧ loopCenter 25 = ![0, 0.85356 * 25, 0.35355 * 25] := by
  have pyth := Real.sin_sq_add_cos_sq (2 * Real.pi / 100 * x)
  have key : distSq (drawLoopPreYaw r x) (loopCenter r)
      = loopRadius r ^ 2
        - 0.0000017632 * (Real.sin (2 * Real.pi / 100 * x) * loopRadius r) ^ 2 := by
    simp [distSq, drawLoopPreYaw, loopLocalPoint, pointsInCircumFun, axisSwapMatrix,
      tiltMatrixLoop, loopCenter, Matrix.vecMul, Matrix.dotProduct, Fin.sum_univ_three]
    linear_combination (loopRadius r ^ 2) * pyth
  have hs := Real.sin_sq_le_one (2 * Real.pi / 100 * x)
  have hnn := sq_nonneg (Real.sin (2 * Real.pi / 100 * x))
  have hR := sq_nonneg (loopRadius r)
  refine ⟨by rw [loopRadius]; ring, rfl, ?_, ?_, rfl, rfl⟩
  · rw [key]; nlinarith
  · rw [key]; nlinarith

/-- C8: in `draw_loop` and `draw_top_loop` the generated points are, for
every angle, radius and index: the local-frame circle point, multiplied
by the fixed axis-swap matrix, then by the tilt matrix, then translated
by the anchor center, and finally multiplied by the yaw matrix — the
translation precedes the yaw, and (by linearity of the yaw) the yaw
rotates the whole anchored loop, carrying the anchor center to its yawed
clock position. -/
theorem loop_pipeline_order (angle r : ℝ) (x : ℕ) :
    drawLoopPoint angle r x
        = Matrix.vecMul (drawLoopPreYaw r x) (yawMatrix angle)
    ∧ drawLoopPreYaw r x
        = Matrix.vecMul (Matrix.vecMul (loopLocalPoint r x) axisSwapMatrix)
            tiltMatrixLoop + loopCenter r
    ∧ drawLoopPoint angle r x
        = Matrix.vecMul (Matrix.vecMul (Matrix.vecMul (loopLocalPoint r x)
              axisSwapMatrix) tiltMatrixLoop) (yawMatrix angle)
          + Matrix.vecMul (loopCenter r) (yawMatrix angle)
    ∧ drawTopLoopPoint angle r x
        = Matrix.vecMul (drawTopLoopPreYaw r x) (yawMatrix angle)
    ∧ drawTopLoopPreYaw r x
        = Matrix.vecMul (Matrix.vecMul (loopLocalPoint r x) axisSwapMatrix)
            tiltMatrixTopLoop + topLoopCenter r
    ∧ drawTopLoopPoint angle r x
        = Matrix.vecMul (Matrix.vecMul (Matrix.vecMul (loopLocalPoint r x)
              axisSwapMatrix) tiltMatrixTopLoop) (yawMatrix angle)
          + Matrix.vecMul (topLoopCenter r) (yawMatrix angle) := by
  refine ⟨rfl, rfl, ?_, rfl, rfl, ?_⟩
  · simp only [drawLoopPoint, drawLoopPreYaw, Matrix.add_vecMul]
  · simp only [drawTopLoopPoint, drawTopLoopPreYaw, Matrix.add_vecMul]

end VideoF2B
